import Mathlib

/-!
Shallow embedding of the VisionFlowMonitoring core modules
(`bynnor_smart_monitoring/core/recording.py`, `core/camera.py`,
`core/detection.py`, `api/realtime_detection.py`) together with proofs of the
behavioural properties claimed for them.

Python dictionaries are modelled as partial maps `String → Option β`
(`Dict β` below); Python `None` is `Option.none`; numeric timestamps and
confidences are rationals; OpenCV frames are records carrying their
dimensions, an element count (`numpy` `.size`) and an identifying payload.
Fallible Python calls are modelled with `Except String`.
-/

namespace VisionFlow

/-- A Python `dict` with string keys, viewed as a partial map. -/
def Dict (β : Type) : Type := String → Option β

/-- The empty dict `{}`. -/
def Dict.empty {β : Type} : Dict β := fun _ => none

/-- Dict update `m[k] = v`. -/
def Dict.set {β : Type} (m : Dict β) (k : String) (v : β) : Dict β :=
  fun x => if x = k then some v else m x

/-- Dict deletion `del m[k]`. -/
def Dict.del {β : Type} (m : Dict β) (k : String) : Dict β :=
  fun x => if x = k then none else m x

/-- An OpenCV frame (`numpy` array): its dimensions, its element count
(`frame.size`), and an identifying payload standing for the pixel data. -/
structure Frame where
  width : Nat
  height : Nat
  size : Nat
  data : Nat
deriving DecidableEq, Repr

/-- The metadata dict attached to every captured frame
(`CameraStream._process_frame` builds it; `VideoRecorder.add_frame` and
`EventDetector` consume it). -/
structure FrameMeta where
  cameraName : String
  timestamp : ℚ
deriving DecidableEq, Repr

/-- A detection / recording trigger event dict, with the keys read by
`VideoRecorder.start_recording` and `VideoRecorder._record_event`. -/
structure Event where
  cameraName : String
  type : String
  timestamp : ℚ
  confidence : ℚ
deriving DecidableEq, Repr

/-! ## `core/recording.py`: `VideoRecorder` -/

/-- One entry of a per-camera frame buffer:
`{'frame': frame.copy(), 'timestamp': timestamp}`. -/
structure FrameData where
  frame : Frame
  timestamp : ℚ
deriving DecidableEq, Repr

/-- State of a `VideoRecorder`.  `frameBuffer` is `self.frame_buffer` (a dict
of per-camera lists), `recording` is `self.recording` (per-camera active-job
flags), and `recordingThreads` records, per camera, the event whose recording
job thread currently occupies `self.recording_threads[camera_name]`. -/
structure VideoRecorder where
  preEventSeconds : ℚ
  postEventSeconds : ℚ
  fps : Nat
  maxBufferFrames : Nat
  frameBuffer : Dict (List FrameData)
  recording : Dict Bool
  recordingThreads : Dict Event

/-- `VideoRecorder.__init__`: empty buffers and
`max_buffer_frames = int(pre_event_seconds * fps)`. -/
def VideoRecorder.init (preEventSeconds postEventSeconds : ℚ) (fps : Nat) :
    VideoRecorder where
  preEventSeconds := preEventSeconds
  postEventSeconds := postEventSeconds
  fps := fps
  maxBufferFrames := (preEventSeconds * fps).floor.toNat
  frameBuffer := Dict.empty
  recording := Dict.empty
  recordingThreads := Dict.empty

/-- The `while len(self.frame_buffer[camera_name]) > self.max_buffer_frames:
... .pop(0)` loop of `add_frame`: drop oldest entries until the buffer fits. -/
def trimBuffer (maxFrames : Nat) : List FrameData → List FrameData
  | [] => []
  | x :: xs => if (x :: xs).length > maxFrames then trimBuffer maxFrames xs else x :: xs

/-- `VideoRecorder.add_frame`: ignore `None`/empty frames, create the camera's
buffer and flag entry on first sight, append, then evict oldest entries. -/
def VideoRecorder.addFrame (r : VideoRecorder) (frame : Option Frame)
    (md : FrameMeta) : VideoRecorder :=
  match frame with
  | none => r
  | some f =>
    if f.size = 0 then r
    else
      let cameraName := md.cameraName
      let r1 :=
        match r.frameBuffer cameraName with
        | some _ => r
        | none =>
          { r with
            frameBuffer := r.frameBuffer.set cameraName []
            recording := r.recording.set cameraName false }
      let buf := ((r1.frameBuffer cameraName).getD []) ++
        [{ frame := f, timestamp := md.timestamp }]
      { r1 with
        frameBuffer := r1.frameBuffer.set cameraName (trimBuffer r1.maxBufferFrames buf) }

/-- `VideoRecorder.start_recording`.  Returns the new state and whether a
recording job thread was started.  The two early returns mirror the source:
an active job for the camera drops the trigger, and an absent or empty frame
buffer aborts before any state change. -/
def VideoRecorder.startRecording (r : VideoRecorder) (event : Event) :
    VideoRecorder × Bool :=
  let cameraName := event.cameraName
  if (r.recording cameraName).getD false then
    (r, false)
  else if ((r.frameBuffer cameraName).getD []).isEmpty then
    (r, false)
  else
    ({ r with
        recording := r.recording.set cameraName true
        recordingThreads := r.recordingThreads.set cameraName event },
      true)

/-- Outcome of a recording job thread. -/
inductive JobOutcome where
  | completed
  | failed
deriving DecidableEq, Repr

/-- `VideoRecorder._record_event`, run to completion.  The clip writing and
finalisation (VideoWriter output, thumbnail, metadata JSON) is summarised by
`writeResult`: `.ok` if the `try` body runs to the end, `.error e` if any
step raises.  The `finally` block resets `self.recording[camera_name]` on
every path; the early return for an empty frame snapshot also resets it. -/
def VideoRecorder.recordEvent (r : VideoRecorder) (cameraName : String)
    (writeResult : Except String Unit) : VideoRecorder × JobOutcome :=
  let frames := (r.frameBuffer cameraName).getD []
  if frames.isEmpty then
    ({ r with recording := r.recording.set cameraName false }, .failed)
  else
    match writeResult with
    | .ok _ => ({ r with recording := r.recording.set cameraName false }, .completed)
    | .error _ => ({ r with recording := r.recording.set cameraName false }, .failed)

/-- `VideoRecorder.is_recording`. -/
def VideoRecorder.isRecording (r : VideoRecorder) (cameraName : String) : Bool :=
  (r.recording cameraName).getD false

/-! ## `core/camera.py`: `CameraStream` capture loop -/

/-- Outcome of one `self.cap.read()` attempt inside `CameraStream._run`:
a valid frame, a read failure (`ret` false or `frame is None`), or an
exception raised by the read. -/
inductive ReadOutcome where
  | ok
  | failed
  | exn
deriving DecidableEq, Repr

/-- The loop-relevant state of `CameraStream._run` while `self.cap` exists:
whether the capture is still open (a release sends the loop into the
reconnect branch on its next iteration), the `self.connected` flag, and the
consecutive-failure counter `error_count`. -/
structure StreamState where
  capOpen : Bool
  connected : Bool
  errorCount : Nat
deriving DecidableEq, Repr

/-- One iteration of the frame-reading section of `CameraStream._run`
(the body guarded by `self.cap.isOpened()`).  `logTick` is true when the
periodic five-second log fires this iteration, which resets `error_count`
before the `ret` check; an exception in `cap.read()` skips that log code.
A read failure with `error_count > 5`, or an exception with
`error_count > 3`, releases the capture (`capOpen := false`), which sends
the loop into the reconnect branch. -/
def readStep (s : StreamState) (outcome : ReadOutcome) (logTick : Bool) :
    StreamState :=
  match outcome with
  | .ok => { s with errorCount := 0, connected := true }
  | .failed =>
    let e := (if logTick then 0 else s.errorCount) + 1
    if e > 5 then { capOpen := false, connected := false, errorCount := e }
    else { s with errorCount := e }
  | .exn =>
    let e := s.errorCount + 1
    if e > 3 then { capOpen := false, connected := false, errorCount := e }
    else { s with errorCount := e }

/-- Iterate `readStep` over a trace of read outcomes (each paired with its
`logTick` flag). -/
def runReads (s : StreamState) (trace : List (ReadOutcome × Bool)) : StreamState :=
  trace.foldl (fun st p => readStep st p.1 p.2) s

/-- One frame subscriber callback: receives the frame copy and the metadata,
and either returns normally or raises. -/
def Callback : Type := Frame → FrameMeta → Except String Unit

/-- The callback loop of `CameraStream._process_frame`: each callback is
invoked inside its own `try`/`except`, an exception is logged and the loop
moves on to the next callback, so every callback's own result is collected. -/
def runCallbacks (f : Frame) (md : FrameMeta) : List Callback → List (Except String Unit)
  | [] => []
  | cb :: rest => cb f md :: runCallbacks f md rest

/-- The success branch of `CameraStream._run` (`ret` true and a frame):
`error_count` is reset to `0`, `self.connected` is confirmed, and
`_process_frame` runs the callbacks.  Exceptions inside callbacks are caught
inside `_process_frame`, so the loop transition does not depend on the
callback results. -/
def captureSuccessStep (s : StreamState) (f : Frame) (name : String) (now : ℚ)
    (cbs : List Callback) : StreamState × List (Except String Unit) :=
  ({ s with errorCount := 0, connected := true },
    runCallbacks f { cameraName := name, timestamp := now } cbs)

/-- The externally-visible state of a `CameraStream` object
(`core/camera.py`): the `running` and `connected` flags, whether `self.cap`
holds a capture object, and the registered callbacks (as opaque ids). -/
structure CameraStream where
  running : Bool
  connected : Bool
  cap : Option Unit
  callbacks : List Nat
deriving DecidableEq, Repr

/-- `CameraStream.stop`: returns early if not running; otherwise joins the
thread, releases `self.cap` if present (the object reference is kept), and
clears `connected`.  The second component counts `cap.release()` calls. -/
def CameraStream.stop (s : CameraStream) : CameraStream × Nat :=
  if !s.running then (s, 0)
  else
    ({ s with running := false, connected := false },
      if s.cap.isSome then 1 else 0)

/-- `CameraManager`: the registry `self.cameras`. -/
structure CameraManager where
  cameras : Dict CameraStream

/-- `CameraManager.remove_camera`.  Returns the new registry, the boolean
result, and the number of `cap.release()` calls performed.  Inside the
present-key branch the source reads `camera.is_running`, an attribute
`CameraStream` never defines, so that inner `try` raises `AttributeError`,
the `except` logs it, and `camera.stop()` is never reached; the later blocks
clear the callbacks, release `camera.cap` when present and set it to `None`,
and delete the registry entry. -/
def CameraManager.removeCamera (m : CameraManager) (cameraId : String) :
    CameraManager × Bool × Nat :=
  match m.cameras cameraId with
  | some camera =>
    let releases := if camera.cap.isSome then 1 else 0
    let camera1 : CameraStream := { camera with callbacks := [], cap := none }
    (⟨(m.cameras.set cameraId camera1).del cameraId⟩, true, releases)
  | none => (m, false, 0)

/-! ## `api/realtime_detection.py`: `RTSPCamera` and `RealtimeSession` -/

/-- The state of an `RTSPCamera` reader: the `running` flag, the capture
object slot, the reader thread slot, and the one-slot frame queue. -/
structure RTSPCamera where
  running : Bool
  cap : Option Unit
  thread : Option Unit
  q : List Frame
deriving DecidableEq, Repr

/-- `RTSPCamera.stop`: clears `running`, drains the queue, releases the
capture if present and sets `self.cap = None`, then drops the thread
reference.  The second component counts `cap.release()` calls. -/
def RTSPCamera.stop (c : RTSPCamera) : RTSPCamera × Nat :=
  ({ running := false, cap := none, thread := none, q := [] },
    if c.cap.isSome then 1 else 0)

/-- The state of a `RealtimeSession`: the `active` flag, its `RTSPCamera`,
the last encoded JPEG, the attached websockets (as opaque ids), the session
confidence threshold `self.conf`, the class filter `self.classes`, and the
shared detector's `conf` field (`self.detector.conf`). -/
structure RealtimeSession where
  active : Bool
  camera : RTSPCamera
  lastJpeg : Option Nat
  websockets : List Nat
  conf : ℚ
  classes : Option (List String)
  detectorConf : ℚ
deriving DecidableEq, Repr

/-- `RealtimeSession.stop`: unconditionally clears `active`, drops the last
JPEG, stops the camera, and clears the websocket list.  The second component
counts `cap.release()` calls performed by the nested `camera.stop()`. -/
def RealtimeSession.stop (s : RealtimeSession) : RealtimeSession × Nat :=
  let p := s.camera.stop
  ({ s with active := false, lastJpeg := none, camera := p.1, websockets := [] },
    p.2)

/-- `np.clip(conf, 0.05, 0.99)`. -/
def npClip (x lo hi : ℚ) : ℚ :=
  if x < lo then lo else if x > hi then hi else x

/-- `RealtimeSession.set_config`: a `None` parameter leaves the matching
field unchanged; a given `conf` is clamped to `[0.05, 0.99]` and written to
both `self.conf` and `self.detector.conf`. -/
def RealtimeSession.setConfig (s : RealtimeSession)
    (classes : Option (List String)) (conf : Option ℚ) : RealtimeSession :=
  let s1 :=
    match classes with
    | some cs => { s with classes := some cs }
    | none => s
  match conf with
  | some c =>
    let c1 := npClip c (5 / 100) (99 / 100)
    { s1 with conf := c1, detectorConf := c1 }
  | none => s1

/-! ## `core/detection.py`: `ObjectDetector` and `EventDetector` -/

/-- One row of `results.boxes.data.tolist()`: absolute corner coordinates,
confidence, and (already truncated to integer) class id. -/
structure RawBox where
  x1 : ℚ
  y1 : ℚ
  x2 : ℚ
  y2 : ℚ
  conf : ℚ
  classId : Int
deriving DecidableEq, Repr

/-- The `DetectionResult` dataclass of `core/detection.py`:
`bbox = [x_center, y_center, width, height]` in normalised coordinates. -/
structure DetectionResult where
  classId : Int
  className : String
  confidence : ℚ
  bbox : List ℚ
  frameWidth : Nat
  frameHeight : Nat
deriving DecidableEq, Repr

/-- The parts of an `ObjectDetector` that `detect` reads: the confidence
threshold, the loaded YOLO model (`None` when ultralytics is unavailable or
loading failed), and the model's class-name table.  The model itself is
summarised by its inference behaviour: given a frame and a confidence
threshold, it either returns the raw boxes or raises. -/
structure ObjectDetector where
  confThreshold : ℚ
  model : Option (Frame → ℚ → Except String (List RawBox))
  classNames : Int → Option String

/-- `self.class_names.get(class_id, f"classe_(class_id)")`. -/
def ObjectDetector.classNameOf (d : ObjectDetector) (classId : Int) : String :=
  (d.classNames classId).getD ("classe_" ++ toString classId)

/-- `max(0.0, min(1.0, x))`. -/
def clamp01 (x : ℚ) : ℚ := max 0 (min 1 x)

/-- The body of the result loop in `ObjectDetector.detect`: class-name
lookup, the `if classes and class_name not in classes: continue` filter
(a `None` or empty class list filters nothing), conversion to normalised
centre coordinates, and clamping to `[0, 1]`. -/
def processBox (d : ObjectDetector) (classes : Option (List String))
    (width height : Nat) (b : RawBox) : Option DetectionResult :=
  let className := d.classNameOf b.classId
  let skip : Bool :=
    match classes with
    | some cs => !cs.isEmpty && !cs.contains className
    | none => false
  if skip then none
  else
    let xc := clamp01 (((b.x1 + b.x2) / 2) / width)
    let yc := clamp01 ((b.y1 + b.y2) / 2 / height)
    let w := clamp01 ((b.x2 - b.x1) / width)
    let h := clamp01 ((b.y2 - b.y1) / height)
    some
      { classId := b.classId
        className := className
        confidence := b.conf
        bbox := [xc, yc, w, h]
        frameWidth := width
        frameHeight := height }

/-- `ObjectDetector.detect`: empty/`None` frame or missing model returns
`[]`; the inference runs with the override threshold when given, the
detector's own otherwise; an exception anywhere in the `try` block is
logged and also returns `[]`. -/
def ObjectDetector.detect (d : ObjectDetector) (frame : Option Frame)
    (classes : Option (List String)) (conf : Option ℚ) : List DetectionResult :=
  match frame with
  | none => []
  | some f =>
    if f.size = 0 then []
    else
      match d.model with
      | none => []
      | some model =>
        let confidence := conf.getD d.confThreshold
        match model f confidence with
        | .error _ => []
        | .ok boxes => boxes.filterMap (processBox d classes f.width f.height)

/-- A `DomainEvent` emitted by `EventDetector._check_events`. -/
structure DomainEvent where
  type : String
  confidence : ℚ
  bbox : List ℚ
  timestamp : ℚ
  cameraName : String
deriving DecidableEq, Repr

/-- The state of an `EventDetector`: minimum confidence, classes of
interest, per-key last event times, and the debounce interval
(`min_event_interval = 5.0`). -/
structure EventDetector where
  minConfidence : ℚ
  classesOfInterest : List String
  lastEventTime : Dict ℚ
  minEventInterval : ℚ

/-- `EventDetector.__init__` with the default configuration. -/
def EventDetector.init (minConfidence : ℚ) : EventDetector where
  minConfidence := minConfidence
  classesOfInterest := ["person", "car", "truck", "bus", "bicycle", "motorcycle"]
  lastEventTime := Dict.empty
  minEventInterval := 5

/-- The event key `f"(camera_name)_(class_name)"`. -/
def eventKey (cameraName className : String) : String :=
  cameraName ++ "_" ++ className

/-- One step of the grouping loop of `_check_events`: append the detection
to its class's list, creating the (insertion-ordered) entry on first
sight. -/
def addToGroup (groups : List (String × List DetectionResult))
    (d : DetectionResult) : List (String × List DetectionResult) :=
  match groups with
  | [] => [(d.className, [d])]
  | (c, ds) :: rest =>
    if c = d.className then (c, ds ++ [d]) :: rest
    else (c, ds) :: addToGroup rest d

/-- `detections_by_class`: the grouping loop of `_check_events`, keeping the
insertion order of a Python dict. -/
def groupByClass (ds : List DetectionResult) : List (String × List DetectionResult) :=
  ds.foldl addToGroup []

/-- One comparison step of `max(class_detections, key=lambda d: d.confidence)`:
keep the current best unless the next detection is strictly better (so ties
keep the earlier element, as Python `max` does). -/
def pickBest (best x : DetectionResult) : DetectionResult :=
  if x.confidence > best.confidence then x else best

/-- `max(class_detections, key=lambda d: d.confidence)`: Python `max`
returns the first element of maximal key. -/
def maxByConf : List DetectionResult → Option DetectionResult
  | [] => none
  | d :: ds => some (ds.foldl pickBest d)

/-- The per-class loop of `EventDetector._check_events`: for each class
group, skip when `current_time - last_time < min_event_interval`, otherwise
emit the event built from the highest-confidence detection and update
`last_event_time[event_key]`.  (`maxByConf` is never `none` here because
every group built by `groupByClass` is nonempty.) -/
def checkEventsLoop (cameraName : String) (currentTime minInterval : ℚ)
    (lastMap : Dict ℚ) :
    List (String × List DetectionResult) → List DomainEvent × Dict ℚ
  | [] => ([], lastMap)
  | (className, classDets) :: rest =>
    let key := eventKey cameraName className
    let lastTime := (lastMap key).getD 0
    if currentTime - lastTime < minInterval then
      checkEventsLoop cameraName currentTime minInterval lastMap rest
    else
      match maxByConf classDets with
      | none => checkEventsLoop cameraName currentTime minInterval lastMap rest
      | some best =>
        let ev : DomainEvent :=
          { type := className
            confidence := best.confidence
            bbox := best.bbox
            timestamp := currentTime
            cameraName := cameraName }
        let p := checkEventsLoop cameraName currentTime minInterval
          (lastMap.set key currentTime) rest
        (ev :: p.1, p.2)

/-- `EventDetector._check_events`: group the batch by class, then run the
per-class loop; returns the emitted events and the detector with its
updated `last_event_time` map. -/
def EventDetector.checkEvents (ed : EventDetector)
    (detections : List DetectionResult) (md : FrameMeta) :
    List DomainEvent × EventDetector :=
  let p := checkEventsLoop md.cameraName md.timestamp ed.minEventInterval
    ed.lastEventTime (groupByClass detections)
  (p.1, { ed with lastEventTime := p.2 })

/-- `EventDetector.process_frame`, restricted to its event output: a `None`
frame yields no events; otherwise the detections are filtered to the
classes of interest at the minimum confidence and passed to
`_check_events`. -/
def EventDetector.processFrame (ed : EventDetector) (d : ObjectDetector)
    (frame : Option Frame) (md : FrameMeta) : List DomainEvent × EventDetector :=
  match frame with
  | none => ([], ed)
  | some f =>
    let detections := d.detect (some f) none none
    let filtered := detections.filter
      (fun dr => dr.className ∈ ed.classesOfInterest ∧ dr.confidence ≥ ed.minConfidence)
    ed.checkEvents filtered md

/-! ## Statement helpers -/

/-- The frame buffer a recorder currently holds for a camera (an absent
entry reads as the empty list, as in `start_recording`'s emptiness test). -/
def bufferOf (r : VideoRecorder) (cam : String) : List FrameData :=
  (r.frameBuffer cam).getD []

/-- A finite sequence of `add_frame` calls, applied in order. -/
def VideoRecorder.addFrames (r : VideoRecorder)
    (inputs : List (Frame × FrameMeta)) : VideoRecorder :=
  inputs.foldl (fun acc p => acc.addFrame (some p.1) p.2) r

/-- The frame-buffer entries appended for camera `cam` by a sequence of
`add_frame` calls, in call order. -/
def appendedFor (inputs : List (Frame × FrameMeta)) (cam : String) :
    List FrameData :=
  (inputs.filter (fun p => p.2.cameraName = cam)).map
    (fun p => { frame := p.1, timestamp := p.2.timestamp })

/-! ## Concrete fixtures used by witnesses and counterexamples -/

/-- A small nonempty frame with payload `i`. -/
def wFrame (i : Nat) : Frame := { width := 2, height := 2, size := 12, data := i }

/-- Five frames appended for `cam1`. -/
def wInputs : List (Frame × FrameMeta) :=
  [(wFrame 1, { cameraName := "cam1", timestamp := 1 }),
   (wFrame 2, { cameraName := "cam1", timestamp := 2 }),
   (wFrame 3, { cameraName := "cam1", timestamp := 3 }),
   (wFrame 4, { cameraName := "cam1", timestamp := 4 }),
   (wFrame 5, { cameraName := "cam1", timestamp := 5 })]

/-- A valid 640x480 frame. -/
def testFrame : Frame := { width := 640, height := 480, size := 921600, data := 7 }

/-- A person-detection trigger event on camera `cam1`. -/
def testEvent : Event :=
  { cameraName := "cam1", type := "person", timestamp := 100, confidence := 9 / 10 }

/-- A person detection with confidence `c` on a 640x480 frame. -/
def personDet (c : ℚ) : DetectionResult :=
  { classId := 0, className := "person", confidence := c,
    bbox := [1 / 2, 1 / 2, 1 / 10, 1 / 5], frameWidth := 640, frameHeight := 480 }

/-- A car detection with confidence `c` on a 640x480 frame. -/
def carDet (c : ℚ) : DetectionResult :=
  { classId := 2, className := "car", confidence := c,
    bbox := [1 / 4, 1 / 4, 1 / 10, 1 / 5], frameWidth := 640, frameHeight := 480 }

/-- A detector whose YOLO model failed to load (`self.model is None`). -/
def detectorNoModel : ObjectDetector :=
  { confThreshold := 1 / 2, model := none, classNames := fun _ => none }

/-- A loaded detector whose inference finds no objects in any frame. -/
def detectorEmptyScene : ObjectDetector :=
  { confThreshold := 1 / 2, model := some (fun _ _ => .ok []),
    classNames := fun _ => none }

/-- A loaded detector whose inference raises on any frame. -/
def detectorRaising : ObjectDetector :=
  { confThreshold := 1 / 2, model := some (fun _ _ => .error "CUDA error"),
    classNames := fun _ => none }

/-- A recorder whose `cam1` buffer holds one frame and whose `cam1` job flag
is set: a recording is in progress. -/
def busyRecorder : VideoRecorder :=
  { VideoRecorder.init 3 5 20 with
    frameBuffer := Dict.empty.set "cam1" [{ frame := testFrame, timestamp := 99 }]
    recording := Dict.empty.set "cam1" true }

/-- A recorder whose `cam1` buffer holds one frame and whose `cam1` job flag
is clear. -/
def idleRecorder : VideoRecorder :=
  { VideoRecorder.init 3 5 20 with
    frameBuffer := Dict.empty.set "cam1" [{ frame := testFrame, timestamp := 99 }]
    recording := Dict.empty.set "cam1" false }

/-! ## Helper lemmas -/

theorem Dict.set_same {β : Type} (m : Dict β) (k : String) (v : β) :
    m.set k v k = some v := by
  simp [Dict.set]

theorem Dict.set_other {β : Type} (m : Dict β) (k x : String) (v : β)
    (h : x ≠ k) : m.set k v x = m x := by
  simp [Dict.set, h]

theorem Dict.del_same {β : Type} (m : Dict β) (k : String) :
    m.del k k = none := by
  simp [Dict.del]

theorem trimBuffer_eq_drop (m : Nat) (l : List FrameData) :
    trimBuffer m l = l.drop (l.length - m) := by
  induction l with
  | nil => simp [trimBuffer]
  | cons x xs ih =>
    by_cases h : (x :: xs).length > m
    · rw [trimBuffer, if_pos h, ih]
      have h2 : (x :: xs).length - m = (xs.length - m) + 1 := by
        simp only [List.length_cons] at h ⊢
        omega
      rw [h2, List.drop_succ_cons]
    · rw [trimBuffer, if_neg h]
      have h2 : (x :: xs).length - m = 0 := by
        simp only [List.length_cons, gt_iff_lt, not_lt] at h ⊢
        omega
      rw [h2, List.drop_zero]

theorem length_trimBuffer (m : Nat) (l : List FrameData) :
    (trimBuffer m l).length = min l.length m := by
  rw [trimBuffer_eq_drop, List.length_drop]
  omega

theorem maxBufferFrames_addFrame (r : VideoRecorder) (fo : Option Frame)
    (md : FrameMeta) : (r.addFrame fo md).maxBufferFrames = r.maxBufferFrames := by
  cases fo with
  | none => rfl
  | some f =>
    by_cases h : f.size = 0
    · simp [VideoRecorder.addFrame, h]
    · cases hb : r.frameBuffer md.cameraName <;>
        simp [VideoRecorder.addFrame, h, hb]

theorem bufferOf_addFrame (r : VideoRecorder) (f : Frame) (md : FrameMeta)
    (cam : String) (hf : f.size ≠ 0) :
    bufferOf (r.addFrame (some f) md) cam =
      if md.cameraName = cam then
        trimBuffer r.maxBufferFrames
          (bufferOf r cam ++ [{ frame := f, timestamp := md.timestamp }])
      else bufferOf r cam := by
  by_cases hc : md.cameraName = cam
  · subst hc
    cases hb : r.frameBuffer md.cameraName <;>
      simp [VideoRecorder.addFrame, hf, hb, bufferOf, Dict.set]
  · have hc2 : cam ≠ md.cameraName := Ne.symm hc
    cases hb : r.frameBuffer md.cameraName <;>
      simp [VideoRecorder.addFrame, hf, hb, bufferOf, Dict.set, hc, hc2]

theorem bufferOf_addFrames_fold (inputs : List (Frame × FrameMeta))
    (r : VideoRecorder) (cam : String)
    (hall : ∀ p ∈ inputs, (p : Frame × FrameMeta).1.size ≠ 0) :
    bufferOf (r.addFrames inputs) cam =
      (appendedFor inputs cam).foldl
        (fun b fd => trimBuffer r.maxBufferFrames (b ++ [fd])) (bufferOf r cam) := by
  induction inputs generalizing r with
  | nil => rfl
  | cons p rest ih =>
    have hp : p.1.size ≠ 0 := hall p (by simp)
    have hrest : ∀ q ∈ rest, (q : Frame × FrameMeta).1.size ≠ 0 :=
      fun q hq => hall q (by simp [hq])
    show bufferOf ((r.addFrame (some p.1) p.2).addFrames rest) cam = _
    rw [ih _ hrest]
    by_cases hc : p.2.cameraName = cam <;>
      simp [appendedFor, List.filter_cons, hc, bufferOf_addFrame _ _ _ _ hp,
        maxBufferFrames_addFrame]

theorem foldl_trim_append (cap : Nat) (fds : List FrameData)
    (b : List FrameData) (hb : b.length ≤ cap) :
    fds.foldl (fun acc fd => trimBuffer cap (acc ++ [fd])) b =
      (b ++ fds).drop ((b ++ fds).length - cap) := by
  induction fds generalizing b with
  | nil =>
    rw [List.foldl_nil, List.append_nil, Nat.sub_eq_zero_of_le hb, List.drop_zero]
  | cons fd rest ih =>
    rw [List.foldl_cons]
    have hble : (trimBuffer cap (b ++ [fd])).length ≤ cap := by
      rw [length_trimBuffer]
      omega
    rw [ih _ hble, trimBuffer_eq_drop]
    have hd : (b ++ [fd]).length - cap ≤ (b ++ [fd]).length := Nat.sub_le _ _
    rw [← List.drop_append_of_le_length hd, List.drop_drop]
    have hl : b ++ [fd] ++ rest = b ++ fd :: rest := by simp
    rw [hl]
    congr 1
    simp
    omega

theorem eventKey_inj (cam a b : String) (h : eventKey cam a = eventKey cam b) :
    a = b := by
  apply String.ext
  have hd := congrArg String.data h
  simp only [eventKey, String.data_append, List.append_assoc,
    List.append_cancel_left_eq] at hd
  exact hd

theorem foldl_pickBest_spec (l : List DetectionResult) (b : DetectionResult) :
    (l.foldl pickBest b = b ∨ l.foldl pickBest b ∈ l) ∧
    b.confidence ≤ (l.foldl pickBest b).confidence ∧
    ∀ d ∈ l, d.confidence ≤ (l.foldl pickBest b).confidence := by
  induction l generalizing b with
  | nil => exact ⟨Or.inl rfl, le_refl _, by simp⟩
  | cons x xs ih =>
    rw [List.foldl_cons]
    obtain ⟨ih1, ih2, ih3⟩ := ih (pickBest b x)
    have hbx : b.confidence ≤ (pickBest b x).confidence := by
      unfold pickBest
      by_cases hx : x.confidence > b.confidence
      · rw [if_pos hx]
        exact le_of_lt hx
      · rw [if_neg hx]
    have hxx : x.confidence ≤ (pickBest b x).confidence := by
      unfold pickBest
      by_cases hx : x.confidence > b.confidence
      · rw [if_pos hx]
      · rw [if_neg hx]
        exact le_of_not_lt hx
    refine ⟨?_, le_trans hbx ih2, ?_⟩
    · rcases ih1 with h | h
      · rw [h]
        unfold pickBest
        by_cases hx : x.confidence > b.confidence
        · rw [if_pos hx]
          exact Or.inr (List.mem_cons_self _ _)
        · rw [if_neg hx]
          exact Or.inl rfl
      · exact Or.inr (List.mem_cons_of_mem _ h)
    · intro d hd
      rcases List.mem_cons.mp hd with h | h
      · rw [h]
        exact le_trans hxx ih2
      · exact ih3 d h

theorem maxByConf_spec (ds : List DetectionResult) (hne : ds ≠ []) :
    ∃ best, maxByConf ds = some best ∧ best ∈ ds ∧
      ∀ d ∈ ds, d.confidence ≤ best.confidence := by
  cases ds with
  | nil => exact absurd rfl hne
  | cons d rest =>
    obtain ⟨h1, h2, h3⟩ := foldl_pickBest_spec rest d
    refine ⟨rest.foldl pickBest d, rfl, ?_, ?_⟩
    · rcases h1 with h | h
      · rw [h]
        exact List.mem_cons_self _ _
      · exact List.mem_cons_of_mem _ h
    · intro d2 hd2
      rcases List.mem_cons.mp hd2 with h | h
      · rw [h]
        exact h2
      · exact h3 d2 h

theorem addToGroup_keys (gs : List (String × List DetectionResult))
    (d : DetectionResult) :
    (addToGroup gs d).map Prod.fst =
      if d.className ∈ gs.map Prod.fst then gs.map Prod.fst
      else gs.map Prod.fst ++ [d.className] := by
  induction gs with
  | nil => simp [addToGroup]
  | cons g rest ih =>
    obtain ⟨c, ds⟩ := g
    by_cases hc : c = d.className
    · subst hc
      simp [addToGroup]
    · rw [show addToGroup ((c, ds) :: rest) d = (c, ds) :: addToGroup rest d by
        simp [addToGroup, hc]]
      rw [List.map_cons, List.map_cons, ih]
      by_cases hm : d.className ∈ rest.map Prod.fst
      · rw [if_pos hm, if_pos (by simp [hm])]
      · rw [if_neg hm, if_neg (by simp [hm, Ne.symm hc]), List.cons_append]

theorem addToGroup_values_ne_nil (gs : List (String × List DetectionResult))
    (d : DetectionResult)
    (h : ∀ g ∈ gs, (g : String × List DetectionResult).2 ≠ []) :
    ∀ g ∈ addToGroup gs d, (g : String × List DetectionResult).2 ≠ [] := by
  induction gs with
  | nil =>
    intro g hg
    simp [addToGroup] at hg
    simp [hg]
  | cons g0 rest ih =>
    obtain ⟨c, ds⟩ := g0
    by_cases hc : c = d.className
    · subst hc
      intro g hg
      rw [show addToGroup ((d.className, ds) :: rest) d = (d.className, ds ++ [d]) :: rest by
        simp [addToGroup]] at hg
      rcases List.mem_cons.mp hg with h1 | h1
      · simp [h1]
      · exact h g (List.mem_cons_of_mem _ h1)
    · intro g hg
      rw [show addToGroup ((c, ds) :: rest) d = (c, ds) :: addToGroup rest d by
        simp [addToGroup, hc]] at hg
      rcases List.mem_cons.mp hg with h1 | h1
      · rw [h1]
        exact h (c, ds) (List.mem_cons_self _ _)
      · exact ih (fun g hg => h g (List.mem_cons_of_mem _ hg)) g h1

theorem groupByClass_wf (ds : List DetectionResult) :
    ((groupByClass ds).map Prod.fst).Nodup ∧
    ∀ g ∈ groupByClass ds, (g : String × List DetectionResult).2 ≠ [] := by
  have aux : ∀ (l : List DetectionResult) (acc : List (String × List DetectionResult)),
      (acc.map Prod.fst).Nodup →
      (∀ g ∈ acc, (g : String × List DetectionResult).2 ≠ []) →
      ((l.foldl addToGroup acc).map Prod.fst).Nodup ∧
      ∀ g ∈ l.foldl addToGroup acc, (g : String × List DetectionResult).2 ≠ [] := by
    intro l
    induction l with
    | nil => exact fun acc hnd hne => ⟨hnd, hne⟩
    | cons d rest ih =>
      intro acc hnd hne
      rw [List.foldl_cons]
      apply ih
      · rw [addToGroup_keys]
        by_cases hm : d.className ∈ acc.map Prod.fst
        · rw [if_pos hm]
          exact hnd
        · rw [if_neg hm]
          simp [List.nodup_append, hnd, hm]
      · exact addToGroup_values_ne_nil acc d hne
  exact aux ds [] (by simp) (by simp)

theorem checkEventsLoop_types (cam : String) (t interval : ℚ)
    (gs : List (String × List DetectionResult)) (lastMap : Dict ℚ) :
    ∀ e ∈ (checkEventsLoop cam t interval lastMap gs).1,
      e.type ∈ gs.map Prod.fst := by
  induction gs generalizing lastMap with
  | nil => simp [checkEventsLoop]
  | cons g rest ih =>
    obtain ⟨c, ds⟩ := g
    intro e he
    simp only [checkEventsLoop] at he
    by_cases hskip : t - ((lastMap (eventKey cam c)).getD 0) < interval
    · rw [if_pos hskip] at he
      exact List.mem_cons_of_mem _ (ih lastMap e he)
    · rw [if_neg hskip] at he
      cases hmax : maxByConf ds with
      | none =>
        rw [hmax] at he
        exact List.mem_cons_of_mem _ (ih lastMap e he)
      | some best =>
        rw [hmax] at he
        rcases List.mem_cons.mp he with h | h
        · rw [h]
          exact List.mem_cons_self _ _
        · exact List.mem_cons_of_mem _ (ih _ e h)

theorem checkEventsLoop_spec (cam : String) (t interval : ℚ)
    (gs : List (String × List DetectionResult)) (lastMap : Dict ℚ)
    (hnd : (gs.map Prod.fst).Nodup)
    (hne : ∀ g ∈ gs, (g : String × List DetectionResult).2 ≠ [])
    (cname : String) (cdets : List DetectionResult)
    (hmem : (cname, cdets) ∈ gs) :
    (t - ((lastMap (eventKey cam cname)).getD 0) < interval →
      ∀ e ∈ (checkEventsLoop cam t interval lastMap gs).1, e.type ≠ cname) ∧
    (interval ≤ t - ((lastMap (eventKey cam cname)).getD 0) →
      ∃ best, maxByConf cdets = some best ∧
        ({ type := cname, confidence := best.confidence, bbox := best.bbox,
           timestamp := t, cameraName := cam } : DomainEvent) ∈
          (checkEventsLoop cam t interval lastMap gs).1) := by
  induction gs generalizing lastMap with
  | nil => simp at hmem
  | cons g rest ih =>
    obtain ⟨c0, ds0⟩ := g
    rw [List.map_cons, List.nodup_cons] at hnd
    obtain ⟨hc0, hndr⟩ := hnd
    have hner : ∀ g ∈ rest, (g : String × List DetectionResult).2 ≠ [] :=
      fun g hg => hne g (List.mem_cons_of_mem _ hg)
    rcases List.mem_cons.mp hmem with hhead | htail
    · injection hhead with hc hd
      subst hc
      subst hd
      simp only [checkEventsLoop]
      by_cases hskip : t - ((lastMap (eventKey cam cname)).getD 0) < interval
      · refine ⟨fun _ e he hEq => ?_, fun hge => absurd hskip (not_lt.mpr ?_)⟩
        · rw [if_pos hskip] at he
          exact hc0 (hEq ▸ checkEventsLoop_types cam t interval rest lastMap e he)
        · linarith
      · refine ⟨fun hlt => absurd hlt hskip, fun _ => ?_⟩
        obtain ⟨best, hb, _, _⟩ :=
          maxByConf_spec cdets (hne (cname, cdets) (List.mem_cons_self _ _))
        rw [if_neg hskip]
        refine ⟨best, hb, ?_⟩
        rw [hb]
        exact List.mem_cons_self _ _
    · have hcn : cname ∈ rest.map Prod.fst :=
        List.mem_map.mpr ⟨(cname, cdets), htail, rfl⟩
      have hne0 : c0 ≠ cname := fun h => hc0 (h ▸ hcn)
      have hkey : eventKey cam c0 ≠ eventKey cam cname :=
        fun h => hne0 (eventKey_inj cam c0 cname h)
      simp only [checkEventsLoop]
      by_cases hskip : t - ((lastMap (eventKey cam c0)).getD 0) < interval
      · rw [if_pos hskip]
        exact ih lastMap hndr hner htail
      · rw [if_neg hskip]
        cases hmax : maxByConf ds0 with
        | none => exact ih lastMap hndr hner htail
        | some best =>
          have hset : (lastMap.set (eventKey cam c0) t) (eventKey cam cname) =
              lastMap (eventKey cam cname) :=
            Dict.set_other _ _ _ _ (Ne.symm hkey)
          obtain ⟨ihs, ihe⟩ := ih (lastMap.set (eventKey cam c0) t) hndr hner htail
          rw [hset] at ihs ihe
          constructor
          · intro hlt e he
            rcases List.mem_cons.mp he with h | h
            · rw [h]
              exact hne0
            · exact ihs hlt e h
          · intro hge
            obtain ⟨best2, hb2, hmem2⟩ := ihe hge
            exact ⟨best2, hb2, List.mem_cons_of_mem _ hmem2⟩

/-- C1: if `VideoRecorder.start_recording(event)` is called while
`recording[camera_name]` is already true for the event's camera, the call
drops the trigger: no recording job thread is started and the recorder's
state (buffers, flags, job slots) is returned unchanged, so at most one
recording job is active per camera. -/
theorem startRecording_active_drops_trigger (r : VideoRecorder) (event : Event)
    (h : r.recording event.cameraName = some true) :
    r.startRecording event = (r, false) := by
  simp [VideoRecorder.startRecording, h]

/-- Witness for C1: the busy recorder drops a second trigger for `cam1`. -/
theorem startRecording_active_drops_trigger_witness :
    busyRecorder.startRecording testEvent = (busyRecorder, false) :=
  startRecording_active_drops_trigger busyRecorder testEvent (by decide)

/-- C9: if `start_recording(event)` is called for a camera whose frame
buffer is absent or empty, the call returns with the recorder state
unchanged — no job thread is started and `recording[camera_name]` is not
set to true.  (File creation happens only inside the job thread, which is
never started here.) -/
theorem startRecording_empty_buffer_noop (r : VideoRecorder) (event : Event)
    (h : r.frameBuffer event.cameraName = none ∨
      r.frameBuffer event.cameraName = some []) :
    r.startRecording event = (r, false) := by
  by_cases hr : (r.recording event.cameraName).getD false
  · simp [VideoRecorder.startRecording, hr]
  · rcases h with h | h <;> simp [VideoRecorder.startRecording, hr, h]

/-- Witness for C9: a fresh recorder (no buffer for `cam1`) ignores a
trigger. -/
theorem startRecording_empty_buffer_noop_witness :
    (VideoRecorder.init 3 5 20).startRecording testEvent =
      (VideoRecorder.init 3 5 20, false) :=
  startRecording_empty_buffer_noop (VideoRecorder.init 3 5 20) testEvent
    (Or.inl (by decide))

/-- C5: if the clip write/finalisation inside `_record_event` raises, the
job outcome is `failed` (the error is logged by the `except` block, which
the model does not track) and the `finally` block still resets
`recording[camera_name]` to false, so a later trigger for that camera with
frames in the buffer starts a new recording job — the camera is never
permanently blocked. -/
theorem recordEvent_failure_clears_flag (r : VideoRecorder) (cameraName : String)
    (e : String) :
    (r.recordEvent cameraName (Except.error e)).2 = JobOutcome.failed ∧
    (r.recordEvent cameraName (Except.error e)).1.recording cameraName = some false ∧
    ∀ event : Event, event.cameraName = cameraName →
      ((r.recordEvent cameraName (Except.error e)).1.frameBuffer cameraName).getD [] ≠ [] →
      ((r.recordEvent cameraName (Except.error e)).1.startRecording event).2 = true := by
  refine ⟨?_, ?_, ?_⟩
  · by_cases hb : ((r.frameBuffer cameraName).getD []).isEmpty <;>
      simp [VideoRecorder.recordEvent, hb]
  · by_cases hb : ((r.frameBuffer cameraName).getD []).isEmpty <;>
      simp [VideoRecorder.recordEvent, hb, Dict.set_same]
  · intro event hcam hne
    by_cases hb : ((r.frameBuffer cameraName).getD []).isEmpty
    · simp [VideoRecorder.recordEvent, hb] at hne
      exact absurd (List.isEmpty_iff.mp hb) hne
    · simp [VideoRecorder.recordEvent, hb, VideoRecorder.startRecording, hcam,
        Dict.set_same]

/-- Witness for C5: after a failed job on the busy recorder, a new trigger
for `cam1` starts a job. -/
theorem recordEvent_failure_clears_flag_witness :
    ((busyRecorder.recordEvent "cam1" (Except.error "disk full")).1.startRecording
      testEvent).2 = true :=
  (recordEvent_failure_clears_flag busyRecorder "cam1" "disk full").2.2 testEvent
    (by decide) (by decide)

/-- C10: `RealtimeSession.set_config` stores the given confidence clamped
into `[0.05, 0.99]` (below becomes `0.05`, above becomes `0.99`) in both the
session and the detector, and a `None` parameter leaves the matching field
unchanged. -/
theorem setConfig_clamps_confidence (s : RealtimeSession)
    (classes : Option (List String)) (c : ℚ) :
    (s.setConfig classes (some c)).conf = max (5 / 100) (min (99 / 100) c) ∧
    (s.setConfig classes (some c)).detectorConf = max (5 / 100) (min (99 / 100) c) ∧
    (s.setConfig classes none).conf = s.conf ∧
    (s.setConfig classes none).detectorConf = s.detectorConf ∧
    (s.setConfig none (some c)).classes = s.classes := by
  have hclip : npClip c (5 / 100) (99 / 100) = max (5 / 100) (min (99 / 100) c) := by
    unfold npClip
    rcases lt_trichotomy c (5 / 100) with h | h | h
    · rw [if_pos h]
      have h1 : min (99 / 100 : ℚ) c ≤ 5 / 100 := le_trans (min_le_right _ _) (le_of_lt h)
      rw [max_eq_left h1]
    · subst h
      norm_num
    · rw [if_neg (not_lt.mpr (le_of_lt h))]
      by_cases h2 : c > 99 / 100
      · rw [if_pos h2]
        rw [min_eq_left (le_of_lt h2)]
        norm_num
      · rw [if_neg h2]
        rw [min_eq_right (not_lt.mp h2)]
        rw [max_eq_right (le_of_lt h)]
  refine ⟨?_, ?_, ?_, ?_, ?_⟩ <;>
    cases classes <;>
    simp [RealtimeSession.setConfig, hclip]

/-- C8: `CameraStream.stop`, `RealtimeSession.stop` and
`CameraManager.remove_camera` are safe to call twice: the second
`stop` is a no-op that performs zero `cap.release()` calls, and the second
`remove_camera` with the same id reports not-found (returns false), performs
no release and leaves the registry exactly as the first call left it. -/
theorem double_stop_and_remove_safe :
    (∀ s : CameraStream, (s.stop.1).stop = (s.stop.1, 0)) ∧
    (∀ sess : RealtimeSession, (sess.stop.1).stop = (sess.stop.1, 0)) ∧
    (∀ (m : CameraManager) (cameraId : String),
      ((m.removeCamera cameraId).1).removeCamera cameraId =
        ((m.removeCamera cameraId).1, false, 0)) := by
  refine ⟨?_, ?_, ?_⟩
  · intro s
    by_cases h : s.running <;> simp [CameraStream.stop, h]
  · intro sess
    simp [RealtimeSession.stop, RTSPCamera.stop]
  · intro m cameraId
    cases h : m.cameras cameraId with
    | none => simp [CameraManager.removeCamera, h]
    | some camera => simp [CameraManager.removeCamera, h, Dict.del_same]

/-- C6: during frame fan-out, a callback that raises is caught and logged
inside `_process_frame`: every other subscriber before and after it still
receives its copy of the frame (its own result is collected unchanged), and
the capture-loop transition for the successful read is unaffected. -/
theorem callback_exception_isolation (s : StreamState) (f : Frame)
    (name : String) (now : ℚ) (pre post : List Callback) (bad : Callback)
    (e : String) (hbad : bad f { cameraName := name, timestamp := now } = .error e) :
    (captureSuccessStep s f name now (pre ++ bad :: post)).2 =
      pre.map (fun cb => cb f { cameraName := name, timestamp := now }) ++
        Except.error e ::
          post.map (fun cb => cb f { cameraName := name, timestamp := now }) ∧
    (captureSuccessStep s f name now (pre ++ bad :: post)).1 =
      { s with errorCount := 0, connected := true } := by
  have hmap : ∀ (cbs : List Callback) (md : FrameMeta),
      runCallbacks f md cbs = cbs.map (fun cb => cb f md) := by
    intro cbs md
    induction cbs with
    | nil => rfl
    | cons cb rest ih => simp [runCallbacks, ih]
  constructor
  · simp [captureSuccessStep, hmap, hbad]
  · rfl

/-- C4 counterexample: after exactly five consecutive read failures (and
after exactly three consecutive exception-class failures) the capture loop
has NOT left the streaming state — `error_count` must exceed the thresholds
(`> 5`, `> 3`), so reconnection starts only on the sixth read failure and
the fourth exception. -/
theorem five_failures_do_not_leave_streaming :
    (runReads { capOpen := true, connected := true, errorCount := 0 }
        (List.replicate 5 (ReadOutcome.failed, false))).capOpen = true ∧
    (runReads { capOpen := true, connected := true, errorCount := 0 }
        (List.replicate 3 (ReadOutcome.exn, false))).capOpen = true := by
  constructor <;> decide

/-- C4 (amended): starting from a streaming state with a zeroed failure
counter and no periodic-log reset during the burst, the loop leaves the
streaming state (releases the capture, which sends the next iteration into
the reconnect branch) after exactly six consecutive read failures and after
exactly four consecutive exception-class failures; fewer consecutive
failures than that never trigger reconnection, and one successful frame
read resets the consecutive-failure counter to zero. -/
theorem reconnect_after_six_read_failures (c : Bool) (n : Nat) :
    (n ≤ 5 → runReads { capOpen := true, connected := c, errorCount := 0 }
        (List.replicate n (ReadOutcome.failed, false)) =
        { capOpen := true, connected := c, errorCount := n }) ∧
    runReads { capOpen := true, connected := c, errorCount := 0 }
        (List.replicate 6 (ReadOutcome.failed, false)) =
      { capOpen := false, connected := false, errorCount := 6 } ∧
    (n ≤ 3 → runReads { capOpen := true, connected := c, errorCount := 0 }
        (List.replicate n (ReadOutcome.exn, false)) =
        { capOpen := true, connected := c, errorCount := n }) ∧
    runReads { capOpen := true, connected := c, errorCount := 0 }
        (List.replicate 4 (ReadOutcome.exn, false)) =
      { capOpen := false, connected := false, errorCount := 4 } ∧
    ∀ (s : StreamState) (tick : Bool),
      (readStep s ReadOutcome.ok tick).errorCount = 0 ∧
      (readStep s ReadOutcome.ok tick).capOpen = s.capOpen := by
  refine ⟨?_, ?_, ?_, ?_, ?_⟩
  · intro h
    cases c <;> interval_cases n <;> decide
  · cases c <;> decide
  · intro h
    cases c <;> interval_cases n <;> decide
  · cases c <;> decide
  · intro s tick
    exact ⟨rfl, rfl⟩

/-- Witness for C4 (amended): five consecutive read failures leave the loop
streaming with the counter at five. -/
theorem reconnect_after_six_read_failures_witness :
    runReads { capOpen := true, connected := true, errorCount := 0 }
        (List.replicate 5 (ReadOutcome.failed, false)) =
      { capOpen := true, connected := true, errorCount := 5 } :=
  (reconnect_after_six_read_failures true 5).1 (by decide)

/-- Witness for C6: with a raising callback between two healthy ones, both
healthy callbacks still receive the frame. -/
theorem callback_exception_isolation_witness :
    (captureSuccessStep { capOpen := true, connected := true, errorCount := 0 }
        testFrame "cam1" 100
        [fun _ _ => .ok (), (fun _ _ => .error "boom"), fun _ _ => .ok ()]).2 =
      [.ok (), .error "boom", .ok ()] := by
  have h := callback_exception_isolation
    { capOpen := true, connected := true, errorCount := 0 } testFrame "cam1" 100
    [fun _ _ => .ok ()] [fun _ _ => .ok ()] (fun _ _ => .error "boom") "boom" rfl
  simpa using h.1

/-- C2: starting from a fresh recorder, after any finite sequence of
`add_frame` calls with non-empty frames, the per-camera buffer holds exactly
the suffix of the frames appended for that camera that fits in
`max_buffer_frames = int(pre_event_seconds * fps)` (eviction removes the
oldest entries, FIFO), its size equals `min(total_appended, capacity)`, and
after every prefix of the call sequence — i.e. at every point between
`add_frame` calls — the size never exceeds the capacity. -/
theorem frame_buffer_ring_invariant (pre post : ℚ) (fps : Nat)
    (inputs : List (Frame × FrameMeta)) (cam : String)
    (hall : ∀ p ∈ inputs, (p : Frame × FrameMeta).1.size ≠ 0) :
    bufferOf ((VideoRecorder.init pre post fps).addFrames inputs) cam =
      (appendedFor inputs cam).drop
        ((appendedFor inputs cam).length - (pre * fps).floor.toNat) ∧
    (bufferOf ((VideoRecorder.init pre post fps).addFrames inputs) cam).length =
      min (appendedFor inputs cam).length (pre * fps).floor.toNat ∧
    (VideoRecorder.init pre post fps).maxBufferFrames = (pre * fps).floor.toNat ∧
    ∀ n : Nat,
      (bufferOf ((VideoRecorder.init pre post fps).addFrames
        (inputs.take n)) cam).length ≤ (pre * fps).floor.toNat := by
  have hinit : bufferOf (VideoRecorder.init pre post fps) cam = [] := rfl
  have hcap : (VideoRecorder.init pre post fps).maxBufferFrames =
      (pre * fps).floor.toNat := rfl
  have key : ∀ ins : List (Frame × FrameMeta),
      (∀ p ∈ ins, (p : Frame × FrameMeta).1.size ≠ 0) →
      bufferOf ((VideoRecorder.init pre post fps).addFrames ins) cam =
        (appendedFor ins cam).drop
          ((appendedFor ins cam).length - (pre * fps).floor.toNat) := by
    intro ins hins
    rw [bufferOf_addFrames_fold ins _ cam hins, hinit, hcap,
      foldl_trim_append _ _ [] (Nat.zero_le _), List.nil_append]
  have hlen : ∀ ins : List (Frame × FrameMeta),
      (∀ p ∈ ins, (p : Frame × FrameMeta).1.size ≠ 0) →
      (bufferOf ((VideoRecorder.init pre post fps).addFrames ins) cam).length =
        min (appendedFor ins cam).length (pre * fps).floor.toNat := by
    intro ins hins
    rw [key ins hins, List.length_drop]
    omega
  refine ⟨key inputs hall, hlen inputs hall, hcap, ?_⟩
  intro n
  rw [hlen (inputs.take n) (fun p hp => hall p (List.take_subset _ _ hp))]
  exact min_le_right _ _

/-- C3: for every (camera, class) pair, `EventDetector._check_events` emits
an event for a detection batch exactly when
`now - last_event_time[key] >= min_event_interval` (an absent key reads as
`0`), the emitted event carries the confidence and bbox of the
highest-confidence detection of its class, and a debounced class never
suppresses a different class of the same batch.  Concretely, with the
default 5-second interval, two `person` detections 1 s apart yield exactly
one event, 6 s apart exactly two, and a debounced `person` leaves a `car`
event of the same batch untouched. -/
theorem event_debounce_per_camera_class (ed : EventDetector)
    (dets : List DetectionResult) (md : FrameMeta) (cname : String)
    (cdets : List DetectionResult) (hmem : (cname, cdets) ∈ groupByClass dets) :
    ((md.timestamp - ((ed.lastEventTime (eventKey md.cameraName cname)).getD 0) <
        ed.minEventInterval →
      ∀ e ∈ (ed.checkEvents dets md).1, e.type ≠ cname) ∧
     (ed.minEventInterval ≤
        md.timestamp - ((ed.lastEventTime (eventKey md.cameraName cname)).getD 0) →
      ∃ best, best ∈ cdets ∧ (∀ d ∈ cdets, d.confidence ≤ best.confidence) ∧
        ({ type := cname, confidence := best.confidence, bbox := best.bbox,
           timestamp := md.timestamp, cameraName := md.cameraName } : DomainEvent) ∈
          (ed.checkEvents dets md).1)) ∧
    ((EventDetector.init (1 / 2)).checkEvents [personDet (9 / 10)]
        { cameraName := "cam1", timestamp := 100 }).1.length = 1 ∧
    ((((EventDetector.init (1 / 2)).checkEvents [personDet (9 / 10)]
        { cameraName := "cam1", timestamp := 100 }).2).checkEvents
        [personDet (17 / 20)] { cameraName := "cam1", timestamp := 101 }).1.length = 0 ∧
    ((((EventDetector.init (1 / 2)).checkEvents [personDet (9 / 10)]
        { cameraName := "cam1", timestamp := 100 }).2).checkEvents
        [personDet (17 / 20)] { cameraName := "cam1", timestamp := 106 }).1.length = 1 ∧
    (({ EventDetector.init (1 / 2) with
        lastEventTime := Dict.empty.set "cam1_person" 98 }).checkEvents
        [personDet (9 / 10), carDet (8 / 10)]
        { cameraName := "cam1", timestamp := 100 }).1 =
      [{ type := "car", confidence := 8 / 10, bbox := [1 / 4, 1 / 4, 1 / 10, 1 / 5],
         timestamp := 100, cameraName := "cam1" }] := by
  obtain ⟨hnd, hne⟩ := groupByClass_wf dets
  obtain ⟨hsup, hemit⟩ := checkEventsLoop_spec md.cameraName md.timestamp
    ed.minEventInterval (groupByClass dets) ed.lastEventTime hnd hne cname cdets hmem
  refine ⟨⟨hsup, ?_⟩, ?_, ?_, ?_, ?_⟩
  · intro hge
    obtain ⟨best, hb, hmemEv⟩ := hemit hge
    obtain ⟨best2, hb2, hbmem, hbmax⟩ :=
      maxByConf_spec cdets (hne (cname, cdets) hmem)
    rw [hb] at hb2
    injection hb2 with hbb
    rw [← hbb] at hbmem hbmax
    exact ⟨best, hbmem, hbmax, hmemEv⟩
  · norm_num [EventDetector.checkEvents, checkEventsLoop, groupByClass, addToGroup,
      EventDetector.init, Dict.empty, Dict.set, maxByConf, pickBest, eventKey, personDet]
  · norm_num [EventDetector.checkEvents, checkEventsLoop, groupByClass, addToGroup,
      EventDetector.init, Dict.empty, Dict.set, maxByConf, pickBest, eventKey, personDet]
  · norm_num [EventDetector.checkEvents, checkEventsLoop, groupByClass, addToGroup,
      EventDetector.init, Dict.empty, Dict.set, maxByConf, pickBest, eventKey, personDet]
  · have h1 : ("cam1" ++ "_" ++ "person" : String) = "cam1_person" := by decide
    have h2 : ("cam1" ++ "_" ++ "car" : String) ≠ "cam1_person" := by decide
    norm_num [EventDetector.checkEvents, checkEventsLoop, groupByClass, addToGroup,
      EventDetector.init, Dict.empty, Dict.set, maxByConf, pickBest, eventKey,
      personDet, carDet, h1, h2]

/-- Witness for C3: a single person detection at `t = 100` on a fresh
detector is emitted with its own (maximal) confidence. -/
theorem event_debounce_per_camera_class_witness :
    ∃ best, best ∈ [personDet (9 / 10)] ∧
      (∀ d ∈ [personDet (9 / 10)], d.confidence ≤ best.confidence) ∧
      ({ type := "person", confidence := best.confidence, bbox := best.bbox,
         timestamp := (100 : ℚ), cameraName := "cam1" } : DomainEvent) ∈
        ((EventDetector.init (1 / 2)).checkEvents [personDet (9 / 10)]
          { cameraName := "cam1", timestamp := 100 }).1 := by
  have h := event_debounce_per_camera_class (EventDetector.init (1 / 2))
    [personDet (9 / 10)] { cameraName := "cam1", timestamp := 100 } "person"
    [personDet (9 / 10)] (by simp [groupByClass, addToGroup, personDet])
  exact h.1.2 (by norm_num [EventDetector.init, Dict.empty, eventKey])

/-- C7 counterexample: `ObjectDetector.detect` returns the plain empty list
both when the model is missing and when inference raises, and that value is
equal to the result of a healthy detector on a frame with no objects — the
return value carries no distinguishable `InferenceUnavailable` signal, so
the claimed distinguishable condition does not exist. -/
theorem detect_unavailable_counterexample :
    detectorNoModel.detect (some testFrame) none none = [] ∧
    detectorRaising.detect (some testFrame) none none = [] ∧
    detectorNoModel.detect (some testFrame) none none =
      detectorEmptyScene.detect (some testFrame) none none ∧
    detectorRaising.detect (some testFrame) none none =
      detectorEmptyScene.detect (some testFrame) none none :=
  ⟨rfl, rfl, rfl, rfl⟩

/-- C7 (amended): when the model is missing or inference raises,
`ObjectDetector.detect` returns the empty detection list, with no further
signal: the result is indistinguishable from an ordinary empty result on a
frame with no objects. -/
theorem detect_unavailable_returns_plain_empty (d : ObjectDetector) (f : Frame)
    (classes : Option (List String)) (conf : Option ℚ) :
    (d.model = none → d.detect (some f) classes conf = []) ∧
    (∀ (model : Frame → ℚ → Except String (List RawBox)) (e : String),
      d.model = some model → model f (conf.getD d.confThreshold) = .error e →
      d.detect (some f) classes conf = []) ∧
    (∀ (d2 : ObjectDetector) (model2 : Frame → ℚ → Except String (List RawBox)),
      d.model = none → d2.model = some model2 →
      model2 f (conf.getD d2.confThreshold) = .ok [] →
      d.detect (some f) classes conf = d2.detect (some f) classes conf) := by
  refine ⟨?_, ?_, ?_⟩
  · intro h
    by_cases hs : f.size = 0 <;> simp [ObjectDetector.detect, h, hs]
  · intro model e hm he
    by_cases hs : f.size = 0 <;> simp [ObjectDetector.detect, hm, hs, he]
  · intro d2 model2 h hm2 hok
    by_cases hs : f.size = 0 <;> simp [ObjectDetector.detect, h, hm2, hs, hok]

/-- Witness for C7 (amended): the detector without a model returns the
empty list on the test frame. -/
theorem detect_unavailable_returns_plain_empty_witness :
    detectorNoModel.detect (some testFrame) none none = [] :=
  (detect_unavailable_returns_plain_empty detectorNoModel testFrame none none).1 rfl

/-- Witness for C2: five frames into a capacity-3 buffer leave the last
three. -/
theorem frame_buffer_ring_invariant_witness :
    bufferOf ((VideoRecorder.init (3 / 20) 5 20).addFrames wInputs) "cam1" =
      (appendedFor wInputs "cam1").drop
        ((appendedFor wInputs "cam1").length - ((3 / 20 : ℚ) * 20).floor.toNat) :=
  (frame_buffer_ring_invariant (3 / 20) 5 20 wInputs "cam1" (by decide)).1

end VisionFlow
